import Mathlib

/-!
# Verification of the ncdevmem device-memory TCP tool

A shallow embedding of the core control-flow of the ncdevmem source
(`do_server`'s NIC setup and receive loop, `validate_buffer`,
`configure_headersplit`, `wait_compl`, `do_client`'s iovec chunking and
`run_devmem_tests`), with theorems settling the specification claims.

External effects (kernel responses to netlink requests, `recvmsg` results,
`setsockopt` return values, shell command exit statuses) are inputs to the
embedded functions; the embedding mirrors the source's control flow on those
inputs.
-/

namespace Ncdevmem

/-! ## Constants from the source and the Linux uapi headers -/

/-- `MAX_IOV` from the source: the fixed iovec cap. -/
def MAX_IOV : Nat := 1024

/-- `SOL_SOCKET` (Linux). -/
def SOL_SOCKET : Nat := 1

/-- `SCM_DEVMEM_LINEAR` (Linux uapi `SO_DEVMEM_LINEAR`). -/
def SCM_DEVMEM_LINEAR : Nat := 78

/-- `SCM_DEVMEM_DMABUF` (Linux uapi `SO_DEVMEM_DMABUF`). -/
def SCM_DEVMEM_DMABUF : Nat := 79

/-- `EAGAIN` (Linux). -/
def EAGAIN : Nat := 11

/-- `EWOULDBLOCK` (Linux); same value as `EAGAIN`. -/
def EWOULDBLOCK : Nat := 11

/-- `SOL_IP` (Linux). -/
def SOL_IP : Nat := 0

/-- `SOL_IPV6` (Linux). -/
def SOL_IPV6 : Nat := 41

/-- `IP_RECVERR` (Linux). -/
def IP_RECVERR : Nat := 11

/-- `IPV6_RECVERR` (Linux). -/
def IPV6_RECVERR : Nat := 25

/-- `SO_EE_ORIGIN_ZEROCOPY` (Linux). -/
def SO_EE_ORIGIN_ZEROCOPY : Nat := 5

/-- `NETDEV_QUEUE_TYPE_RX` (Linux netdev uapi). -/
def NETDEV_QUEUE_TYPE_RX : Nat := 0

/-- The value of `(size_t)-1` on a 64-bit target: the sentinel the source
stores in `endptr` before the first fragment. -/
def SIZE_MAX : Nat := 2 ^ 64 - 1

/-! ## Fatal conditions

Each constructor corresponds to one `error(1, ...)`/`ERR(...)` call site in
the source. -/

inductive Fatal where
  | parseServerAddress
  | resetFlowSteeringFailed
  | headersplitFailed
  | rssFailed
  | flowSteeringFailed
  | bindFailed
  | wrongDmabufId
  | dontneedNotEnoughTokens
  | noDevmem
  | msgCtrunc
  | recvmsgErrqueue
  | wrongOrigin
  | wrongErrno
  | completionTimeout
  | tooManyChunks
  | emptyBindSucceeded
  | splitOffBindSucceeded
  | finalBindFailed
  | channelShrinkSucceeded
  | validationFailed
  deriving Repr, DecidableEq

/-! ## `validate_buffer` (source lines 125-148)

The byte buffer is a list of byte values; `errors` is the value of the
`static int errors` counter on entry.  The source increments `errors` on each
mismatching byte and calls `error(1, 0, "validation failed.")` as soon as the
counter exceeds 20; we return the final counter, or a fatal marker. -/

def validateScan (do_validation : Nat) :
    List Nat → Nat → Nat → Except Fatal Nat
  | [], _, errors => .ok errors
  | b :: rest, seed, errors =>
    if b ≠ seed then
      if errors + 1 > 20 then .error .validationFailed
      else validateScan do_validation rest
        (if seed + 1 = do_validation then 0 else seed + 1) (errors + 1)
    else validateScan do_validation rest
      (if seed + 1 = do_validation then 0 else seed + 1) errors

def validate_buffer (do_validation : Nat) (data : List Nat) (seed errors : Nat) :
    Except Fatal Nat :=
  validateScan do_validation data (seed % do_validation) errors

/-! ## Receive engine data model (source lines 520-629)

A control message as walked by `do_server`'s cmsg loop.  The payload mirrors
`struct dmabuf_cmsg`; for a LINEAR variant only `frag_size` is meaningful. -/

structure DmabufCmsg where
  frag_offset : Nat
  frag_size : Nat
  frag_token : Nat
  dmabuf_id : Nat
  deriving Repr, DecidableEq

structure Cmsg where
  cmsg_level : Nat
  cmsg_type : Nat
  payload : DmabufCmsg
  deriving Repr, DecidableEq

/-- The per-connection mutable state of `do_server`'s receive loop. -/
structure ServerState where
  endptr : Nat
  page_aligned_frags : Nat
  non_page_aligned_frags : Nat
  total_received : Nat
  is_devmem : Bool
  deriving Repr, DecidableEq

/-- Initial values of the `do_server` locals (`endptr = (size_t)-1`). -/
def ServerState.init : ServerState :=
  { endptr := SIZE_MAX, page_aligned_frags := 0, non_page_aligned_frags := 0,
    total_received := 0, is_devmem := false }

/-- Observable data-plane actions of the receive loop.  `copied` is the
device-to-device copy into the staging region (`hipMemcpy`), `tokenReturned`
the `SO_DEVMEM_DONTNEED` setsockopt, and `validated` the call to
`validate_buffer` — the source has that call commented out inside
`do_server`, so the embedding never emits `validated`. -/
inductive RxEvent where
  | copied (dst_off src_off len : Nat)
  | tokenReturned (token_start token_count : Nat)
  | validated (off len seed : Nat)
  deriving Repr, DecidableEq

/-- One step of the cmsg walk in `do_server` (source lines 549-623).
`dontneed` gives the kernel's return value for the `SO_DEVMEM_DONTNEED`
setsockopt on a given `frag_token`; `dmabuf_id` is the id stored by
`bind_rx_queue`. -/
def processCmsg (dontneed : Nat → Int) (dmabuf_id : Nat) (st : ServerState)
    (cm : Cmsg) : Except Fatal (ServerState × List RxEvent) :=
  if cm.cmsg_level ≠ SOL_SOCKET ∨
     (cm.cmsg_type ≠ SCM_DEVMEM_DMABUF ∧ cm.cmsg_type ≠ SCM_DEVMEM_LINEAR) then
    .ok (st, [])
  else
    let st := { st with is_devmem := true }
    if cm.cmsg_type = SCM_DEVMEM_LINEAR then
      .ok (st, [])
    else if cm.payload.dmabuf_id ≠ dmabuf_id then
      .error .wrongDmabufId
    else
      let st :=
        if st.endptr = SIZE_MAX then
          { st with endptr := cm.payload.frag_offset }
        else if st.endptr = cm.payload.frag_offset then
          { st with page_aligned_frags := st.page_aligned_frags + 1 }
        else
          { st with endptr := cm.payload.frag_offset,
                    non_page_aligned_frags := st.non_page_aligned_frags + 1 }
      let st := { st with endptr := (st.endptr + cm.payload.frag_size) % 2 ^ 64 }
      if dontneed cm.payload.frag_token ≠ 1 then
        .error .dontneedNotEnoughTokens
      else
        .ok ({ st with total_received := st.total_received + cm.payload.frag_size },
             [.copied st.total_received cm.payload.frag_offset cm.payload.frag_size,
              .tokenReturned cm.payload.frag_token 1])

/-- The full cmsg walk over one received message. -/
def processCmsgs (dontneed : Nat → Int) (dmabuf_id : Nat) :
    ServerState → List Cmsg → Except Fatal (ServerState × List RxEvent)
  | st, [] => .ok (st, [])
  | st, cm :: rest =>
    match processCmsg dontneed dmabuf_id st cm with
    | .error f => .error f
    | .ok (st', evs) =>
      match processCmsgs dontneed dmabuf_id st' rest with
      | .error f => .error f
      | .ok (st'', evs') => .ok (st'', evs ++ evs')

/-- Result of one `recvmsg(client_fd, &msg, MSG_SOCK_DEVMEM)` call:
a negative return with the given `errno`, a zero return (peer closed), or a
positive byte count together with the control messages delivered. -/
inductive RecvResult where
  | err (errno : Nat)
  | closed
  | data (n : Nat) (cmsgs : List Cmsg)
  deriving Repr, DecidableEq

/-- Log lines the loop emits on its non-fatal paths. -/
inductive RxLog where
  | recvError (errno : Nat)
  | clientExited
  deriving Repr, DecidableEq

/-- Teardown actions performed after the loop exits (source lines 636-643). -/
inductive ExitEvent where
  | freedTmpMem
  | closedClientFd
  | closedSocketFd
  | ynlDestroyed
  deriving Repr, DecidableEq

/-- Outcome of running the receive loop against a finite trace of `recvmsg`
results: still blocked in the loop when the trace is exhausted, a clean exit
with `do_server`'s return value and its teardown actions, or a fatal
`error(1, ...)`. -/
inductive LoopResult where
  | running (st : ServerState) (evs : List RxEvent) (logs : List RxLog)
  | cleanExit (st : ServerState) (evs : List RxEvent) (logs : List RxLog)
      (retval : Int) (cleanup : List ExitEvent)
  | fatal (f : Fatal)
  deriving Repr, DecidableEq

/-- Prepend events and logs produced by an iteration to the loop outcome. -/
def LoopResult.prepend (evs : List RxEvent) (logs : List RxLog) :
    LoopResult → LoopResult
  | .running st evs' logs' => .running st (evs ++ evs') (logs ++ logs')
  | .cleanExit st evs' logs' r c => .cleanExit st (evs ++ evs') (logs ++ logs') r c
  | .fatal f => .fatal f

/-- The receive loop of `do_server` (source lines 520-629): dispatch on the
`recvmsg` result, walk the control messages, and require at least one devmem
descriptor per delivered message. -/
def serverLoop (dontneed : Nat → Int) (dmabuf_id : Nat) :
    ServerState → List RecvResult → LoopResult
  | st, [] => .running st [] []
  | st, .err e :: rest =>
    if e = EAGAIN ∨ e = EWOULDBLOCK then
      serverLoop dontneed dmabuf_id st rest
    else
      (serverLoop dontneed dmabuf_id st rest).prepend [] [.recvError e]
  | st, .closed :: _ =>
    .cleanExit st [] [.clientExited] 0
      [.freedTmpMem, .closedClientFd, .closedSocketFd, .ynlDestroyed]
  | st, .data _ cmsgs :: rest =>
    match processCmsgs dontneed dmabuf_id { st with is_devmem := false } cmsgs with
    | .error f => .fatal f
    | .ok (st', evs) =>
      if st'.is_devmem = false then .fatal .noDevmem
      else (serverLoop dontneed dmabuf_id st' rest).prepend evs []

/-! ## `configure_headersplit` (source lines 216-254)

Inputs are the externals the function consumes: whether `ynl_sock_create`
succeeds, the return of `ethtool_rings_set`, and the (optional) response of
the follow-up `ethtool_rings_get`.  The result is the function's return value
paired with the `tcp_data_split` value it reported from the read-back (none
when no read-back happened or the get returned no response). -/

structure RingsGetRsp where
  tcp_data_split : Nat
  deriving Repr, DecidableEq

/-- The `tcp_data_split` value requested: `on ? 2 : 0`. -/
def headersplitRequested (turn_on : Bool) : Nat := if turn_on then 2 else 0

def configure_headersplit (turn_on : Bool) (sock_ok : Bool) (set_ret : Int)
    (get_rsp : Option RingsGetRsp) : Int × Option Nat :=
  if ¬sock_ok then (-1, none)
  else
    let reported : Option Nat :=
      if set_ret = 0 then get_rsp.map (·.tcp_data_split) else none
    (set_ret, reported)

/-! ## `bind_rx_queue` (source lines 302-345) and the queue lists

`create_queues` (source lines 428-442) fills every entry and marks both
fields present; the self-test's empty-bind call instead passes a
`calloc`-zeroed array whose entries carry no present flags. -/

structure QueueId where
  present_type : Bool
  present_id : Bool
  qtype : Nat
  id : Nat
  deriving Repr, DecidableEq

def create_queues (start_queue num_queues : Nat) : List QueueId :=
  (List.range num_queues).map fun i =>
    { present_type := true, present_id := true,
      qtype := NETDEV_QUEUE_TYPE_RX, id := start_queue + i }

/-- The `calloc(num_queues, sizeof(struct netdev_queue_id))` array passed by
`run_devmem_tests`: all fields zero, no present flags. -/
def callocQueues (num_queues : Nat) : List QueueId :=
  List.replicate num_queues
    { present_type := false, present_id := false, qtype := 0, id := 0 }

/-- Response of the `netdev_bind_rx` netlink request, when one arrives. -/
structure BindRxRsp where
  present_id : Bool
  id : Nat
  deriving Repr, DecidableEq

/-- `bind_rx_queue`: returns `-1` when the socket cannot be created, when no
response arrives, or when the response has no id; on success stores the
kernel-assigned id (returned here in `.ok`). -/
def bind_rx_queue (sock_ok : Bool) (rsp : Option BindRxRsp) : Except Unit Nat :=
  if ¬sock_ok then .error ()
  else
    match rsp with
    | none => .error ()
    | some r => if ¬r.present_id then .error () else .ok r.id

/-- Modelled from the spec: the kernel's handling of a bind-rx request, which
is not part of this repository.  Per the spec, a bind-rx issued with an empty
queue list returns an error; a `calloc`-zeroed queue array carries no present
queue entries, so its effective queue list is empty.  Otherwise the kernel
answers with a present id. -/
def kernelBindRx (assigned_id : Nat) (queues : List QueueId) : Option BindRxRsp :=
  if (queues.filter fun q => q.present_type && q.present_id).isEmpty then none
  else some { present_id := true, id := assigned_id }

/-! ## `run_devmem_tests` (source lines 646-683)

Environment: the externals each step consumes, in program order.  The result
is `ok` when the self-test runs to completion, or the fatal condition at the
step that failed.  The source's `error(1, ...)` on a *succeeding* empty bind
(lines 660-663) is `emptyBindSucceeded`. -/

structure TestsEnv where
  rss_ret : Int
  hs_on1_sock : Bool
  hs_on1_set : Int
  hs_on1_rsp : Option RingsGetRsp
  bind_empty_sock : Bool
  bind_empty_rsp : Option BindRxRsp
  hs_off_sock : Bool
  hs_off_set : Int
  hs_off_rsp : Option RingsGetRsp
  bind_off_sock : Bool
  bind_off_rsp : Option BindRxRsp
  hs_on2_sock : Bool
  hs_on2_set : Int
  hs_on2_rsp : Option RingsGetRsp
  bind_final_sock : Bool
  bind_final_rsp : Option BindRxRsp
  channels_ret : Int
  deriving Repr, DecidableEq

def run_devmem_tests (e : TestsEnv) : Except Fatal Unit :=
  if e.rss_ret ≠ 0 then .error .rssFailed
  else if (configure_headersplit true e.hs_on1_sock e.hs_on1_set e.hs_on1_rsp).1 ≠ 0 then
    .error .headersplitFailed
  else if (bind_rx_queue e.bind_empty_sock e.bind_empty_rsp).isOk then
    .error .emptyBindSucceeded
  else if (configure_headersplit false e.hs_off_sock e.hs_off_set e.hs_off_rsp).1 ≠ 0 then
    .error .headersplitFailed
  else if (bind_rx_queue e.bind_off_sock e.bind_off_rsp).isOk then
    .error .splitOffBindSucceeded
  else if (configure_headersplit true e.hs_on2_sock e.hs_on2_set e.hs_on2_rsp).1 ≠ 0 then
    .error .headersplitFailed
  else if ¬(bind_rx_queue e.bind_final_sock e.bind_final_rsp).isOk then
    .error .finalBindFailed
  else if e.channels_ret = 0 then .error .channelShrinkSucceeded
  else .ok ()

/-! ## `wait_compl` (source lines 708-761)

The deadline loop is driven by a finite trace of iterations; each element is
what one pass of the `while (gettimeofday_ms() < tstop)` body observes:
`notReady` when `do_poll` reports no error-queue readiness, `recvErr` a
negative `recvmsg(MSG_ERRQUEUE)` with its errno, and `msg` a drained message
with its `MSG_CTRUNC` flag and control headers.  An exhausted trace is the
deadline expiring. -/

structure SockExtendedErr where
  ee_errno : Nat
  ee_origin : Nat
  ee_info : Nat
  ee_data : Nat
  deriving Repr, DecidableEq

structure ErrqCmsg where
  cmsg_level : Nat
  cmsg_type : Nat
  serr : SockExtendedErr
  deriving Repr, DecidableEq

inductive ErrqIter where
  | notReady
  | recvErr (errno : Nat)
  | msg (ctrunc : Bool) (cmsgs : List ErrqCmsg)
  deriving Repr, DecidableEq

/-- The cmsg walk inside `wait_compl`: skip non-recverr headers; on a
relevant one require zero-copy origin and zero errno, then yield
`(lo, hi) = (ee_info, ee_data)`.  `.ok none` means no relevant header was
found in this message. -/
def scanErrqCmsgs : List ErrqCmsg → Except Fatal (Option (Nat × Nat))
  | [] => .ok none
  | cm :: rest =>
    if cm.cmsg_level ≠ SOL_IP ∧ cm.cmsg_level ≠ SOL_IPV6 then
      scanErrqCmsgs rest
    else if cm.cmsg_level = SOL_IP ∧ cm.cmsg_type ≠ IP_RECVERR then
      scanErrqCmsgs rest
    else if cm.cmsg_level = SOL_IPV6 ∧ cm.cmsg_type ≠ IPV6_RECVERR then
      scanErrqCmsgs rest
    else if cm.serr.ee_origin ≠ SO_EE_ORIGIN_ZEROCOPY then
      .error .wrongOrigin
    else if cm.serr.ee_errno ≠ 0 then
      .error .wrongErrno
    else
      .ok (some (cm.serr.ee_info, cm.serr.ee_data))

def wait_compl : List ErrqIter → Except Fatal (Nat × Nat)
  | [] => .error .completionTimeout
  | .notReady :: rest => wait_compl rest
  | .recvErr e :: rest =>
    if e = EAGAIN then wait_compl rest else .error .recvmsgErrqueue
  | .msg ctrunc cmsgs :: rest =>
    if ctrunc then .error .msgCtrunc
    else
      match scanErrqCmsgs cmsgs with
      | .error f => .error f
      | .ok (some lh) => .ok lh
      | .ok none => wait_compl rest

/-! ## `do_client` iovec construction (source lines 842-860)

For one transmit iteration with payload length `line_size`: with
`max_chunk ≠ 0` the payload is split into `(line_size + max_chunk - 1) /
max_chunk` segments whose `iov_base` fields hold dma-buf byte offsets
`i * max_chunk` and whose lengths are `max_chunk`, the last overwritten with
`line_size - (iovlen - 1) * max_chunk`; more than `MAX_IOV` segments is
fatal.  With `max_chunk = 0` the whole payload is one segment at offset 0. -/

def doClientIov (max_chunk line_size : Nat) :
    Except Fatal (List (Nat × Nat)) :=
  if max_chunk ≠ 0 then
    let iovlen := (line_size + max_chunk - 1) / max_chunk
    if iovlen > MAX_IOV then .error .tooManyChunks
    else
      .ok ((List.range iovlen).map fun i =>
        (i * max_chunk,
         if i + 1 = iovlen then line_size - (iovlen - 1) * max_chunk
         else max_chunk))
  else .ok [(0, line_size)]

/-! ## `do_server` NIC setup (source lines 463-484)

`reset_flow_steering` shells out three ethtool commands and ignores their
exit statuses, returning 0 unconditionally (source lines 186-200). -/

def reset_flow_steering (cmd_ntuple_off cmd_ntuple_on cmd_delete : Int) : Int :=
  0

/-- The NIC configuration steps `do_server` performs before the first
receive, in program order. -/
inductive SetupStep where
  | resetFlowSteering
  | setHeadersplitOn
  | configureRss
  | installFlowRule
  | settleSleep
  | bindRx
  deriving Repr, DecidableEq

/-- Environment of the setup phase: shell exit statuses consumed by the
flow-steering reset, and the externals of each subsequent step. -/
structure ServerEnv where
  parse_ok : Bool
  rfs_cmd1 : Int
  rfs_cmd2 : Int
  rfs_cmd3 : Int
  hs_sock : Bool
  hs_set : Int
  hs_rsp : Option RingsGetRsp
  rss_ret : Int
  flow_ret : Int
  bind_sock : Bool
  bind_rsp : Option BindRxRsp
  deriving Repr, DecidableEq

/-- The setup phase of `do_server`: each `if (step()) error(1, ...)` site in
source order.  On success, yields the executed step trace and the dmabuf id
stored by `bind_rx_queue`. -/
def do_server_setup (e : ServerEnv) : Except Fatal (List SetupStep × Nat) :=
  if ¬e.parse_ok then .error .parseServerAddress
  else if reset_flow_steering e.rfs_cmd1 e.rfs_cmd2 e.rfs_cmd3 ≠ 0 then
    .error .resetFlowSteeringFailed
  else if (configure_headersplit true e.hs_sock e.hs_set e.hs_rsp).1 ≠ 0 then
    .error .headersplitFailed
  else if e.rss_ret ≠ 0 then .error .rssFailed
  else if e.flow_ret ≠ 0 then .error .flowSteeringFailed
  else
    match bind_rx_queue e.bind_sock e.bind_rsp with
    | .error _ => .error .bindFailed
    | .ok id =>
      .ok ([.resetFlowSteering, .setHeadersplitOn, .configureRss,
            .installFlowRule, .settleSleep, .bindRx], id)

/-- `do_server` as a whole: the setup phase, then (only if every setup step
succeeded) the receive loop with the dmabuf id the bind returned. -/
def do_server_run (e : ServerEnv) (dontneed : Nat → Int)
    (trace : List RecvResult) : Except Fatal (List SetupStep × LoopResult) :=
  match do_server_setup e with
  | .error f => .error f
  | .ok (steps, id) => .ok (steps, serverLoop dontneed id ServerState.init trace)

/-! ## Auxiliary observers and spec-modelled kernel values -/

/-- Does a receive-loop event record an invocation of the validator? -/
def RxEvent.isValidation : RxEvent → Bool
  | .validated _ _ _ => true
  | _ => false

/-- The data-plane events a loop outcome carries. -/
def LoopResult.events : LoopResult → List RxEvent
  | .running _ evs _ => evs
  | .cleanExit _ evs _ _ _ => evs
  | .fatal _ => []

/-- Is an error-queue control header a receive-error header at IP or IPv6
level (the headers `wait_compl` does not skip)? -/
def ErrqCmsg.recverrAt (cm : ErrqCmsg) : Bool :=
  (cm.cmsg_level = SOL_IP && cm.cmsg_type = IP_RECVERR) ||
  (cm.cmsg_level = SOL_IPV6 && cm.cmsg_type = IPV6_RECVERR)

/-- Modelled from the spec: the return value with which the kernel — not
part of this repository — reports success for the token-release
`setsockopt` (`SO_DEVMEM_DONTNEED`); per the spec, "the kernel normally
returns 0 on success". -/
def kernelDontneedSuccess : Int := 0

/-! ## Shared lemmas -/

theorem LoopResult.prepend_nil (r : LoopResult) : r.prepend [] [] = r := by
  cases r <;> simp [LoopResult.prepend]

/-- A control message at socket level of LINEAR type only marks the message
as devmem: state otherwise unchanged, no events. -/
theorem processCmsg_linear (dontneed : Nat → Int) (id : Nat) (st : ServerState)
    (cm : Cmsg) (h1 : cm.cmsg_level = SOL_SOCKET)
    (h2 : cm.cmsg_type = SCM_DEVMEM_LINEAR) :
    processCmsg dontneed id st cm = .ok ({ st with is_devmem := true }, []) := by
  simp [processCmsg, h1, h2, SOL_SOCKET, SCM_DEVMEM_LINEAR, SCM_DEVMEM_DMABUF]

/-- Unfolding equation for the cmsg walk on a cons. -/
theorem processCmsgs_cons (dontneed : Nat → Int) (id : Nat) (st : ServerState)
    (cm : Cmsg) (rest : List Cmsg) :
    processCmsgs dontneed id st (cm :: rest) =
      match processCmsg dontneed id st cm with
      | .error f => .error f
      | .ok (st', evs) =>
        match processCmsgs dontneed id st' rest with
        | .error f => .error f
        | .ok (st'', evs') => .ok (st'', evs ++ evs') := rfl

/-- Over a nonempty all-LINEAR control-message list, the cmsg walk only sets
`is_devmem`. -/
theorem processCmsgs_linear (dontneed : Nat → Int) (id : Nat)
    (cmsgs : List Cmsg) :
    ∀ st : ServerState,
    (∀ cm ∈ cmsgs, cm.cmsg_level = SOL_SOCKET ∧
      cm.cmsg_type = SCM_DEVMEM_LINEAR) →
    cmsgs ≠ [] →
    processCmsgs dontneed id st cmsgs = .ok ({ st with is_devmem := true }, []) := by
  induction cmsgs with
  | nil => intro st _ hne; exact absurd rfl hne
  | cons cm rest ih =>
    intro st hall _
    have hcm := hall cm (List.mem_cons_self ..)
    have hstep := processCmsg_linear dontneed id st cm hcm.1 hcm.2
    cases rest with
    | nil => simp [processCmsgs, hstep]
    | cons cm2 rest2 =>
      have ih2 := ih { st with is_devmem := true }
        (fun c hc => hall c (List.mem_cons_of_mem _ hc)) (by simp)
      rw [processCmsgs_cons, hstep]
      dsimp only
      rw [ih2]
      simp

/-! ## Claim theorems -/

/-- C1: In the receive loop, a control-message descriptor of DMABUF variant
whose `dmabuf_id` differs from the id stored by the active RX binding is
fatal (flow-steering leak); and every fragment whose processing produces
data-plane events (device copy, token return) or adds to `total_received`
carries the binding's id. -/
theorem dmabuf_id_guard (dontneed : Nat → Int) (id : Nat) (st : ServerState)
    (cm : Cmsg) :
    (cm.cmsg_level = SOL_SOCKET → cm.cmsg_type = SCM_DEVMEM_DMABUF →
      cm.payload.dmabuf_id ≠ id →
      processCmsg dontneed id st cm = .error .wrongDmabufId) ∧
    (∀ st' evs, processCmsg dontneed id st cm = .ok (st', evs) →
      evs ≠ [] ∨ st'.total_received ≠ st.total_received →
      cm.payload.dmabuf_id = id) := by
  constructor
  · intro h1 h2 h3
    simp [processCmsg, h1, h2, h3, SOL_SOCKET, SCM_DEVMEM_DMABUF,
      SCM_DEVMEM_LINEAR]
  · intro st' evs hok hch
    by_contra hne
    simp only [processCmsg] at hok
    split_ifs at hok with hskip hlin
    · simp only [Except.ok.injEq, Prod.mk.injEq] at hok
      rcases hok with ⟨rfl, rfl⟩
      rcases hch with h | h
      · exact h rfl
      · exact h rfl
    · simp only [Except.ok.injEq, Prod.mk.injEq] at hok
      rcases hok with ⟨rfl, rfl⟩
      rcases hch with h | h
      · exact h rfl
      · exact h rfl

/-- Witness for C1 at a concrete mismatching fragment. -/
theorem dmabuf_id_guard_witness :
    processCmsg (fun _ => 1) 5 ServerState.init
      { cmsg_level := SOL_SOCKET, cmsg_type := SCM_DEVMEM_DMABUF,
        payload := { frag_offset := 4096, frag_size := 6, frag_token := 7,
                     dmabuf_id := 4 } }
      = .error .wrongDmabufId :=
  (dmabuf_id_guard (fun _ => 1) 5 ServerState.init _).1 rfl rfl (by decide)

/-- C2 (code bug): with validation enabled, `do_server`'s fragment path
performs the device copy and the token return but emits no invocation of the
validator — the `validate_buffer` call inside `do_server` is commented out in
the source — while `validate_buffer` itself, if it were invoked, is fatal
once its cumulative mismatch counter exceeds 20. -/
theorem validation_not_invoked :
    (serverLoop (fun _ => 1) 5 ServerState.init
        [.data 6 [{ cmsg_level := SOL_SOCKET, cmsg_type := SCM_DEVMEM_DMABUF,
                    payload := { frag_offset := 4096, frag_size := 6,
                                 frag_token := 7, dmabuf_id := 5 } }]]
      = .running { endptr := 4102, page_aligned_frags := 0,
                   non_page_aligned_frags := 0, total_received := 6,
                   is_devmem := true }
          [.copied 0 4096 6, .tokenReturned 7 1] []) ∧
    (([RxEvent.copied 0 4096 6, .tokenReturned 7 1].all
        fun ev => !ev.isValidation) = true) ∧
    validate_buffer 7 (List.replicate 21 100) 0 0 = .error .validationFailed ∧
    validate_buffer 7 (List.replicate 20 100) 0 0 = .ok 20 := by
  refine ⟨by decide, by decide, rfl, rfl⟩

/-- C3 (code bug): the token-return path accepts only the literal setsockopt
return 1; at the spec-modelled kernel success value 0 the receive loop
terminates fatally instead of continuing. -/
theorem dontneed_success_fatal :
    kernelDontneedSuccess = 0 ∧
    processCmsg (fun _ => kernelDontneedSuccess) 5 ServerState.init
      { cmsg_level := SOL_SOCKET, cmsg_type := SCM_DEVMEM_DMABUF,
        payload := { frag_offset := 4096, frag_size := 6, frag_token := 7,
                     dmabuf_id := 5 } }
      = .error .dontneedNotEnoughTokens ∧
    serverLoop (fun _ => kernelDontneedSuccess) 5 ServerState.init
      [.data 6 [{ cmsg_level := SOL_SOCKET, cmsg_type := SCM_DEVMEM_DMABUF,
                  payload := { frag_offset := 4096, frag_size := 6,
                               frag_token := 7, dmabuf_id := 5 } }]]
      = .fatal .dontneedNotEnoughTokens ∧
    processCmsg (fun _ => 1) 5 ServerState.init
      { cmsg_level := SOL_SOCKET, cmsg_type := SCM_DEVMEM_DMABUF,
        payload := { frag_offset := 4096, frag_size := 6, frag_token := 7,
                     dmabuf_id := 5 } }
      = .ok ({ endptr := 4102, page_aligned_frags := 0,
               non_page_aligned_frags := 0, total_received := 6,
               is_devmem := true },
             [.copied 0 4096 6, .tokenReturned 7 1]) := by
  refine ⟨rfl, rfl, by decide, rfl⟩

/-- C6: dispatch of the stream-receive result in the receive loop — `EAGAIN`
and `EWOULDBLOCK` retry the iteration unchanged; any other negative result
only logs and continues; zero exits the loop cleanly with return value 0
after releasing resources; a positive result proceeds to control-message
processing. -/
theorem recv_dispatch (dontneed : Nat → Int) (id : Nat) (st : ServerState)
    (rest : List RecvResult) :
    (serverLoop dontneed id st (.err EAGAIN :: rest) =
      serverLoop dontneed id st rest) ∧
    (∀ e, e ≠ EAGAIN → e ≠ EWOULDBLOCK →
      serverLoop dontneed id st (.err e :: rest) =
        (serverLoop dontneed id st rest).prepend [] [.recvError e]) ∧
    (serverLoop dontneed id st (.closed :: rest) =
      .cleanExit st [] [.clientExited] 0
        [.freedTmpMem, .closedClientFd, .closedSocketFd, .ynlDestroyed]) ∧
    (∀ n cmsgs, serverLoop dontneed id st (.data n cmsgs :: rest) =
      match processCmsgs dontneed id { st with is_devmem := false } cmsgs with
      | .error f => .fatal f
      | .ok (st', evs) =>
        if st'.is_devmem = false then .fatal .noDevmem
        else (serverLoop dontneed id st' rest).prepend evs []) := by
  refine ⟨rfl, fun e h1 h2 => ?_, rfl, fun n cmsgs => rfl⟩
  have hcond : ¬(e = EAGAIN ∨ e = EWOULDBLOCK) := fun hor => hor.elim h1 h2
  simp only [serverLoop, if_neg hcond]

/-- Witness for C6 at a concrete soft recvmsg error. -/
theorem recv_dispatch_witness :
    serverLoop (fun _ => 1) 0 ServerState.init [.err 5] =
      (serverLoop (fun _ => 1) 0 ServerState.init []).prepend
        [] [.recvError 5] :=
  (recv_dispatch (fun _ => 1) 0 ServerState.init []).2.1 5 (by decide)
    (by decide)

/-- C10: a LINEAR descriptor marks the message as devmem delivery — so an
all-LINEAR message does not trigger the fatal no-devmem error — but is
otherwise skipped: no events (no copy, no token return) and no change to
`total_received`. -/
theorem linear_marks_devmem (dontneed : Nat → Int) (id : Nat) :
    (∀ st cm, cm.cmsg_level = SOL_SOCKET → cm.cmsg_type = SCM_DEVMEM_LINEAR →
      processCmsg dontneed id st cm = .ok ({ st with is_devmem := true }, [])) ∧
    (∀ (st : ServerState) n cmsgs rest,
      (∀ cm ∈ cmsgs, cm.cmsg_level = SOL_SOCKET ∧
        cm.cmsg_type = SCM_DEVMEM_LINEAR) →
      cmsgs ≠ [] →
      serverLoop dontneed id st (.data n cmsgs :: rest) =
        serverLoop dontneed id { st with is_devmem := true } rest) := by
  refine ⟨fun st cm h1 h2 => processCmsg_linear dontneed id st cm h1 h2, ?_⟩
  intro st n cmsgs rest hall hne
  have h := processCmsgs_linear dontneed id cmsgs
    { st with is_devmem := false } hall hne
  simp only [serverLoop]
  rw [h]
  dsimp only
  simp [LoopResult.prepend_nil]

/-- Witness for C10 at a concrete all-LINEAR message. -/
theorem linear_marks_devmem_witness :
    serverLoop (fun _ => 1) 5 ServerState.init
      [.data 3 [{ cmsg_level := SOL_SOCKET, cmsg_type := SCM_DEVMEM_LINEAR,
                  payload := { frag_offset := 0, frag_size := 3,
                               frag_token := 0, dmabuf_id := 0 } }]] =
      serverLoop (fun _ => 1) 5 { ServerState.init with is_devmem := true }
        [] :=
  (linear_marks_devmem (fun _ => 1) 5).2 ServerState.init 3 _ []
    (by decide) (by decide)

/-- C4: the completion wait — deadline expiry with no completion is fatal;
a truncated control buffer is fatal; a non-`EAGAIN` receive error is fatal
while `EAGAIN` and a not-ready poll retry; a receive-error header at IP or
IPv6 level is fatal unless its origin is zero-copy with errno 0, in which
case `(lo, hi) = (ee_info, ee_data)` is extracted and returned; other
headers are skipped. -/
theorem tx_completion_wait :
    (wait_compl [] = .error .completionTimeout) ∧
    (∀ cmsgs rest, wait_compl (.msg true cmsgs :: rest) = .error .msgCtrunc) ∧
    (∀ rest, wait_compl (.notReady :: rest) = wait_compl rest) ∧
    (∀ rest, wait_compl (.recvErr EAGAIN :: rest) = wait_compl rest) ∧
    (∀ e rest, e ≠ EAGAIN →
      wait_compl (.recvErr e :: rest) = .error .recvmsgErrqueue) ∧
    (∀ cm l, cm.recverrAt = true →
      cm.serr.ee_origin ≠ SO_EE_ORIGIN_ZEROCOPY →
      scanErrqCmsgs (cm :: l) = .error .wrongOrigin) ∧
    (∀ cm l, cm.recverrAt = true →
      cm.serr.ee_origin = SO_EE_ORIGIN_ZEROCOPY → cm.serr.ee_errno ≠ 0 →
      scanErrqCmsgs (cm :: l) = .error .wrongErrno) ∧
    (∀ cm l, cm.recverrAt = true →
      cm.serr.ee_origin = SO_EE_ORIGIN_ZEROCOPY → cm.serr.ee_errno = 0 →
      scanErrqCmsgs (cm :: l) =
        .ok (some (cm.serr.ee_info, cm.serr.ee_data))) ∧
    (∀ cm l, cm.recverrAt = false →
      scanErrqCmsgs (cm :: l) = scanErrqCmsgs l) ∧
    (∀ cmsgs rest lo hi, scanErrqCmsgs cmsgs = .ok (some (lo, hi)) →
      wait_compl (.msg false cmsgs :: rest) = .ok (lo, hi)) ∧
    (∀ cmsgs rest, scanErrqCmsgs cmsgs = .ok none →
      wait_compl (.msg false cmsgs :: rest) = wait_compl rest) := by
  refine ⟨rfl, fun cmsgs rest => rfl, fun rest => rfl, fun rest => rfl,
    fun e rest he => ?_, fun cm l hr ho => ?_, fun cm l hr ho he => ?_,
    fun cm l hr ho he => ?_, fun cm l hr => ?_,
    fun cmsgs rest lo hi hscan => ?_, fun cmsgs rest hscan => ?_⟩
  · simp only [wait_compl, if_neg he]
  · simp only [ErrqCmsg.recverrAt, Bool.or_eq_true, Bool.and_eq_true,
      decide_eq_true_eq] at hr
    rcases hr with ⟨h1, h2⟩ | ⟨h1, h2⟩ <;>
      simp [scanErrqCmsgs, h1, h2, ho, SOL_IP, SOL_IPV6, IP_RECVERR,
        IPV6_RECVERR]
  · simp only [ErrqCmsg.recverrAt, Bool.or_eq_true, Bool.and_eq_true,
      decide_eq_true_eq] at hr
    rcases hr with ⟨h1, h2⟩ | ⟨h1, h2⟩ <;>
      simp [scanErrqCmsgs, h1, h2, ho, he, SOL_IP, SOL_IPV6, IP_RECVERR,
        IPV6_RECVERR]
  · simp only [ErrqCmsg.recverrAt, Bool.or_eq_true, Bool.and_eq_true,
      decide_eq_true_eq] at hr
    rcases hr with ⟨h1, h2⟩ | ⟨h1, h2⟩ <;>
      simp [scanErrqCmsgs, h1, h2, ho, he, SOL_IP, SOL_IPV6, IP_RECVERR,
        IPV6_RECVERR]
  · by_cases h1 : cm.cmsg_level = SOL_IP
    · have h2 : cm.cmsg_type ≠ IP_RECVERR := fun h2 => by
        simp [ErrqCmsg.recverrAt, h1, h2] at hr
      simp [scanErrqCmsgs, h1, h2, SOL_IP, SOL_IPV6]
    · by_cases h3 : cm.cmsg_level = SOL_IPV6
      · have h4 : cm.cmsg_type ≠ IPV6_RECVERR := fun h4 => by
          simp [ErrqCmsg.recverrAt, h3, h4] at hr
        simp [scanErrqCmsgs, h1, h3, h4, SOL_IP, SOL_IPV6]
      · simp [scanErrqCmsgs, h1, h3]
  · simp only [wait_compl, Bool.false_eq_true, if_false]
    rw [hscan]
  · simp only [wait_compl, Bool.false_eq_true, if_false]
    rw [hscan]

/-- Witness for C4 at a concrete fatal receive error and a concrete matching
zero-copy completion header. -/
theorem tx_completion_wait_witness :
    wait_compl [.recvErr 5] = .error .recvmsgErrqueue ∧
    scanErrqCmsgs
      [{ cmsg_level := SOL_IP, cmsg_type := IP_RECVERR,
         serr := { ee_errno := 0, ee_origin := SO_EE_ORIGIN_ZEROCOPY,
                   ee_info := 3, ee_data := 9 } }] = .ok (some (3, 9)) := by
  constructor
  · exact tx_completion_wait.2.2.2.2.1 5 [] (by decide)
  · exact tx_completion_wait.2.2.2.2.2.2.2.1 _ [] (by decide) rfl rfl

/-- C7 (counterexample): with header split requested on (`tcp_data_split`
2), a successful set followed by a read-back observing 0 (split off) still
returns 0 (success) and merely reports the observed value — the
source never compares the read-back against the requested value, so a
disagreeing read-back is not fatal. -/
theorem headersplit_no_readback_check :
    configure_headersplit true true 0 (some { tcp_data_split := 0 }) =
      (0, some 0) ∧
    headersplitRequested true = 2 ∧ (0 : Nat) ≠ 2 := by
  refine ⟨rfl, rfl, by decide⟩

/-- C7 (amended): `configure_headersplit` returns the status of the set
operation; when the set succeeds it performs the follow-up read and reports
whatever `tcp_data_split` value it observes, without comparing it to the
requested one; when the set fails, or the control socket cannot be created,
no value is reported. -/
theorem headersplit_reports_observed (turn_on sock_ok : Bool) (set_ret : Int)
    (rsp : Option RingsGetRsp) :
    (¬sock_ok → configure_headersplit turn_on sock_ok set_ret rsp =
      (-1, none)) ∧
    (sock_ok → (configure_headersplit turn_on sock_ok set_ret rsp).1 =
      set_ret) ∧
    (sock_ok → set_ret = 0 →
      (configure_headersplit turn_on sock_ok set_ret rsp).2 =
        rsp.map (·.tcp_data_split)) ∧
    (sock_ok → set_ret ≠ 0 →
      (configure_headersplit turn_on sock_ok set_ret rsp).2 = none) := by
  refine ⟨fun h => by simp [configure_headersplit, h],
    fun h => by simp [configure_headersplit, h],
    fun h h0 => by simp [configure_headersplit, h, h0],
    fun h h0 => by simp [configure_headersplit, h, h0]⟩

/-- Witness for C7's amended claim at a concrete agreeing read-back. -/
theorem headersplit_reports_observed_witness :
    (configure_headersplit true true 0 (some { tcp_data_split := 2 })).2 =
      some 2 :=
  (headersplit_reports_observed true true 0
    (some { tcp_data_split := 2 })).2.2.1 rfl rfl

/-- C5: for a transmit iteration with positive payload length `line_size`
and chunk size `C > 0`, the iovec holds `⌈line_size / C⌉` segments whose
offsets are the consecutive multiples of `C`, each of length `C` except the
last, which is trimmed to the (positive) remainder; a segment count above
the cap `MAX_IOV = 1024` is fatal; with `C = 0` the whole payload is one
segment of length `line_size` at offset 0. -/
theorem tx_chunking (C L n : Nat) (hL : 0 < L) (hn : n = (L + C - 1) / C) :
    (C ≠ 0 → n ≤ MAX_IOV →
      doClientIov C L = .ok ((List.range n).map fun i =>
        (i * C, if i + 1 = n then L - (n - 1) * C else C)) ∧
      (∀ i, i + 1 < n →
        ((List.range n).map fun i =>
          (i * C, if i + 1 = n then L - (n - 1) * C else C))[i]? =
          some (i * C, C)) ∧
      (((List.range n).map fun i =>
          (i * C, if i + 1 = n then L - (n - 1) * C else C))[n - 1]? =
          some ((n - 1) * C, L - (n - 1) * C)) ∧
      1 ≤ n ∧ L ≤ n * C ∧ (n - 1) * C < L ∧
      0 < L - (n - 1) * C ∧ L - (n - 1) * C ≤ C) ∧
    (C ≠ 0 → n > MAX_IOV → doClientIov C L = .error .tooManyChunks) ∧
    (C = 0 → doClientIov C L = .ok [(0, L)]) ∧
    MAX_IOV = 1024 := by
  refine ⟨fun hC hcap => ?_, fun hC hcap => ?_, fun h0 => ?_, rfl⟩
  · have hCpos : 0 < C := Nat.pos_of_ne_zero hC
    have hn1 : 1 ≤ n := by
      rw [hn]
      exact (Nat.le_div_iff_mul_le hCpos).mpr (by omega)
    have harith : L ≤ n * C ∧ (n - 1) * C < L ∧ 0 < L - (n - 1) * C ∧
        L - (n - 1) * C ≤ C := by
      have h3 : L + C - 1 < n * C + C := by
        have h3' : (L + C - 1) / C < n + 1 := by
          rw [← hn]; exact Nat.lt_succ_self n
        calc L + C - 1 < (n + 1) * C := (Nat.div_lt_iff_lt_mul hCpos).mp h3'
          _ = n * C + C := by ring
      have h4 : n * C ≤ L + C - 1 :=
        (Nat.le_div_iff_mul_le hCpos).mp (le_of_eq hn)
      have h5 : (n - 1) * C + C = n * C := by
        have heq : n - 1 + 1 = n := by omega
        calc (n - 1) * C + C = (n - 1 + 1) * C := by ring
          _ = n * C := by rw [heq]
      set A := n * C with hA
      set B := (n - 1) * C with hB
      omega
    refine ⟨?_, ?_, ?_, hn1, harith.1, harith.2.1, harith.2.2.1,
      harith.2.2.2⟩
    · simp only [doClientIov, if_pos hC, ← hn]
      rw [if_neg (by omega : ¬n > MAX_IOV)]
    · intro i hi
      have h1 : i < n := by omega
      have h2 : ¬(i + 1 = n) := by omega
      simp [List.getElem?_map, List.getElem?_range, h1, h2]
    · have h1 : n - 1 < n := by omega
      have h2 : n - 1 + 1 = n := by omega
      simp [List.getElem?_map, List.getElem?_range, h1, h2]
  · have h : (L + C - 1) / C > MAX_IOV := hn ▸ hcap
    simp only [doClientIov, if_pos hC, if_pos h]
  · simp [doClientIov, h0]

/-- Witness for C5 at `max_chunk = 3`, `line_size = 7` and at
`max_chunk = 0`. -/
theorem tx_chunking_witness :
    doClientIov 3 7 = .ok [(0, 3), (3, 3), (6, 1)] ∧
    doClientIov 0 7 = .ok [(0, 7)] := by
  have h := tx_chunking 3 7 3 (by decide) (by decide)
  have h0 := tx_chunking 0 7 0 (by decide) (by decide)
  exact ⟨((h.1 (by decide) (by decide)).1).trans rfl, h0.2.2.1 rfl⟩

/-- Characterization of a successful `do_server` setup phase: it succeeds
exactly when address parsing, header split, RSS, the flow rule and the bind
all succeed, and then the executed steps are exactly the source's sequence. -/
theorem do_server_setup_ok_iff (e : ServerEnv) (steps : List SetupStep)
    (id : Nat) :
    do_server_setup e = .ok (steps, id) ↔
      e.parse_ok = true ∧
      (configure_headersplit true e.hs_sock e.hs_set e.hs_rsp).1 = 0 ∧
      e.rss_ret = 0 ∧ e.flow_ret = 0 ∧
      bind_rx_queue e.bind_sock e.bind_rsp = .ok id ∧
      steps = [.resetFlowSteering, .setHeadersplitOn, .configureRss,
               .installFlowRule, .settleSleep, .bindRx] := by
  constructor
  · intro h
    by_cases h1 : e.parse_ok = true
    case neg => simp [do_server_setup, h1] at h
    by_cases h2 : (configure_headersplit true e.hs_sock e.hs_set e.hs_rsp).1 = 0
    case neg => simp [do_server_setup, reset_flow_steering, h1, h2] at h
    by_cases h3 : e.rss_ret = 0
    case neg => simp [do_server_setup, reset_flow_steering, h1, h2, h3] at h
    by_cases h4 : e.flow_ret = 0
    case neg =>
      simp [do_server_setup, reset_flow_steering, h1, h2, h3, h4] at h
    cases hb : bind_rx_queue e.bind_sock e.bind_rsp with
    | error u =>
      simp [do_server_setup, reset_flow_steering, h1, h2, h3, h4, hb] at h
    | ok v =>
      simp [do_server_setup, reset_flow_steering, h1, h2, h3, h4, hb] at h
      exact ⟨h1, h2, h3, h4, congrArg Except.ok h.2, h.1.symm⟩
  · rintro ⟨h1, h2, h3, h4, h5, rfl⟩
    simp [do_server_setup, reset_flow_steering, h1, h2, h3, h4, h5]

/-- C8: the NIC configuration of `do_server` runs, in order, flow-steering
reset, header split on, RSS, flow rule, settling wait, RX bind; the receive
loop runs only after a fully successful setup (so header split precedes the
bind and the bind precedes any receive); each step's failure is fatal except
the internals of the flow-steering reset, whose shell exit statuses are
ignored. -/
theorem nic_setup_sequence (e : ServerEnv) :
    (∀ c1 c2 c3 : Int, reset_flow_steering c1 c2 c3 = 0) ∧
    (do_server_setup e ≠ .error .resetFlowSteeringFailed) ∧
    (∀ steps id, do_server_setup e = .ok (steps, id) →
      steps = [.resetFlowSteering, .setHeadersplitOn, .configureRss,
               .installFlowRule, .settleSleep, .bindRx]) ∧
    (e.parse_ok = true →
      (configure_headersplit true e.hs_sock e.hs_set e.hs_rsp).1 ≠ 0 →
      do_server_setup e = .error .headersplitFailed) ∧
    (e.parse_ok = true →
      (configure_headersplit true e.hs_sock e.hs_set e.hs_rsp).1 = 0 →
      e.rss_ret ≠ 0 → do_server_setup e = .error .rssFailed) ∧
    (e.parse_ok = true →
      (configure_headersplit true e.hs_sock e.hs_set e.hs_rsp).1 = 0 →
      e.rss_ret = 0 → e.flow_ret ≠ 0 →
      do_server_setup e = .error .flowSteeringFailed) ∧
    (e.parse_ok = true →
      (configure_headersplit true e.hs_sock e.hs_set e.hs_rsp).1 = 0 →
      e.rss_ret = 0 → e.flow_ret = 0 →
      bind_rx_queue e.bind_sock e.bind_rsp = .error () →
      do_server_setup e = .error .bindFailed) ∧
    (∀ f dontneed trace, do_server_setup e = .error f →
      do_server_run e dontneed trace = .error f) ∧
    (∀ steps id dontneed trace, do_server_setup e = .ok (steps, id) →
      do_server_run e dontneed trace =
        .ok (steps, serverLoop dontneed id ServerState.init trace)) := by
  refine ⟨fun c1 c2 c3 => rfl, ?_, ?_, ?_, ?_, ?_, ?_, ?_, ?_⟩
  · intro h
    by_cases h1 : e.parse_ok = true
    case neg => simp [do_server_setup, h1] at h
    by_cases h2 : (configure_headersplit true e.hs_sock e.hs_set e.hs_rsp).1 = 0
    case neg => simp [do_server_setup, reset_flow_steering, h1, h2] at h
    by_cases h3 : e.rss_ret = 0
    case neg => simp [do_server_setup, reset_flow_steering, h1, h2, h3] at h
    by_cases h4 : e.flow_ret = 0
    case neg =>
      simp [do_server_setup, reset_flow_steering, h1, h2, h3, h4] at h
    cases hb : bind_rx_queue e.bind_sock e.bind_rsp with
    | error u =>
      simp [do_server_setup, reset_flow_steering, h1, h2, h3, h4, hb] at h
    | ok v =>
      simp [do_server_setup, reset_flow_steering, h1, h2, h3, h4, hb] at h
  · intro steps id h
    exact ((do_server_setup_ok_iff e steps id).mp h).2.2.2.2.2
  · intro h1 h2
    simp [do_server_setup, reset_flow_steering, h1, h2]
  · intro h1 h2 h3
    simp [do_server_setup, reset_flow_steering, h1, h2, h3]
  · intro h1 h2 h3 h4
    simp [do_server_setup, reset_flow_steering, h1, h2, h3, h4]
  · intro h1 h2 h3 h4 h5
    simp [do_server_setup, reset_flow_steering, h1, h2, h3, h4, h5]
  · intro f dontneed trace h
    simp [do_server_run, h]
  · intro steps id dontneed trace h
    simp [do_server_run, h]

/-- Witness for C8 at a fully successful concrete environment. -/
theorem nic_setup_sequence_witness :
    do_server_run
      { parse_ok := true, rfs_cmd1 := 1, rfs_cmd2 := 1, rfs_cmd3 := 1,
        hs_sock := true, hs_set := 0, hs_rsp := some { tcp_data_split := 2 },
        rss_ret := 0, flow_ret := 0, bind_sock := true,
        bind_rsp := some { present_id := true, id := 4 } }
      (fun _ => 1) [] =
      .ok ([.resetFlowSteering, .setHeadersplitOn, .configureRss,
            .installFlowRule, .settleSleep, .bindRx],
           serverLoop (fun _ => 1) 4 ServerState.init []) :=
  (nic_setup_sequence _).2.2.2.2.2.2.2.2
    [.resetFlowSteering, .setHeadersplitOn, .configureRss,
     .installFlowRule, .settleSleep, .bindRx] 4 (fun _ => 1) [] rfl

/-- C9: under the spec-modelled kernel, a bind-rx whose queue array is the
self-test's `calloc`-zeroed list (no present queue entries) returns an
error; the self-test treats that bind *succeeding* as fatal, and never
raises that fatal condition when the bind fails as required. -/
theorem empty_queue_bind_fails :
    (∀ n assigned_id,
      bind_rx_queue true (kernelBindRx assigned_id (callocQueues n)) =
        .error ()) ∧
    (∀ e : TestsEnv, e.rss_ret = 0 →
      (configure_headersplit true e.hs_on1_sock e.hs_on1_set
        e.hs_on1_rsp).1 = 0 →
      (bind_rx_queue e.bind_empty_sock e.bind_empty_rsp).isOk = true →
      run_devmem_tests e = .error .emptyBindSucceeded) ∧
    (∀ e : TestsEnv,
      (bind_rx_queue e.bind_empty_sock e.bind_empty_rsp).isOk = false →
      run_devmem_tests e ≠ .error .emptyBindSucceeded) := by
  refine ⟨fun n a => ?_, fun e h1 h2 h3 => ?_, fun e h hcontra => ?_⟩
  · have hf : (callocQueues n).filter
        (fun q => q.present_type && q.present_id) = [] := by
      induction n with
      | zero => rfl
      | succ k ih =>
        simp only [callocQueues, List.replicate_succ, List.filter_cons] at ih ⊢
        simp [ih]
    simp [kernelBindRx, hf, bind_rx_queue]
  · simp [run_devmem_tests, h1, h2, h3]
  · simp only [run_devmem_tests] at hcontra
    split_ifs at hcontra <;> simp_all

/-- Witness for C9 at concrete inputs: a zeroed two-entry queue array, and a
self-test environment whose empty bind (wrongly) succeeds. -/
theorem empty_queue_bind_fails_witness :
    bind_rx_queue true (kernelBindRx 3 (callocQueues 2)) = .error () ∧
    run_devmem_tests
      { rss_ret := 0, hs_on1_sock := true, hs_on1_set := 0,
        hs_on1_rsp := none, bind_empty_sock := true,
        bind_empty_rsp := some { present_id := true, id := 9 },
        hs_off_sock := true, hs_off_set := 0, hs_off_rsp := none,
        bind_off_sock := true, bind_off_rsp := none,
        hs_on2_sock := true, hs_on2_set := 0, hs_on2_rsp := none,
        bind_final_sock := true,
        bind_final_rsp := some { present_id := true, id := 9 },
        channels_ret := -1 } = .error .emptyBindSucceeded := by
  constructor
  · exact empty_queue_bind_fails.1 2 3
  · exact empty_queue_bind_fails.2.1 _ rfl rfl rfl
